import Mathlib

/-!
Verification of the local-files navigation pane
(`textual_markdown_viewer/widgets/navigation_panes/local_files.py`).

The development shallowly embeds the two pieces of logic in that module:

* `FilteredDirectoryTree.filter_paths` — the visibility predicate over
  filesystem entries, embedded as `filter_paths` below.  The Python body is
  a list comprehension whose condition is, with Python's operator
  precedence (`and` binds tighter than `or`):
  `(not path.name.startswith(".") and path.is_dir())
     or (path.is_file() and maybe_markdown(path))`.
  The Markdown-likeness heuristic `maybe_markdown` lives in a separate
  utility module and is treated as an opaque oracle parameter `md`.

* The `LocalFiles` pane — its mounted-child state, `compose`, `chdir`,
  `set_focus_within`, the `Goto` message and the file-selection handler,
  embedded as explicit state passing over `PaneState`.
-/

/-- The kind of a filesystem entry, as reported by `Path.is_dir` /
`Path.is_file` (which follow symlinks; an entry can be neither, e.g. a
socket or a broken symlink, but never both). -/
inductive PathKind where
  | directory
  | file
  | other
deriving DecidableEq, Repr

/-- A filesystem entry as seen by the filter: a final name component
together with its kind.  `name` models Python's `path.name`. -/
structure FSPath where
  name : String
  kind : PathKind
deriving DecidableEq, Repr

/-- `path.is_dir()`. -/
def FSPath.is_dir (p : FSPath) : Bool := p.kind == PathKind.directory

/-- `path.is_file()`. -/
def FSPath.is_file (p : FSPath) : Bool := p.kind == PathKind.file

/-- `name.startswith(".")`: true iff the string is non-empty and its first
character is a dot. -/
def starts_with_dot (s : String) : Bool :=
  match s.data with
  | [] => false
  | c :: _ => c == '.'

/-- `path.name.startswith(".")`, the Unix hidden-entry test. -/
def FSPath.hidden (p : FSPath) : Bool := starts_with_dot p.name

/-- `FilteredDirectoryTree.filter_paths`, parameterised by the Markdown
heuristic `md` (the `maybe_markdown` collaborator).  The condition keeps
Python's precedence: `(not hidden and is_dir) or (is_file and md)`. -/
def filter_paths (md : FSPath → Bool) (paths : List FSPath) : List FSPath :=
  paths.filter fun path =>
    (!path.hidden && path.is_dir) || (path.is_file && md path)

/-- Whether evaluating the filter condition on `path` reaches the call
`maybe_markdown(path)`.  Python evaluates `X or Y` left to right: the
second disjunct is evaluated only when
`not path.name.startswith(".") and path.is_dir()` is false, and inside it
`maybe_markdown(path)` is evaluated only when `path.is_file()` is true. -/
def markdown_checked (path : FSPath) : Bool :=
  !(!path.hidden && path.is_dir) && path.is_file

/-- The entries on which one evaluation of `filter_paths` calls the
Markdown heuristic, in order. -/
def markdown_check_calls (paths : List FSPath) : List FSPath :=
  paths.filter markdown_checked

/-- A hidden Markdown-looking file, used to witness the precedence slip in
the filter condition. -/
def hiddenMdFile : FSPath := ⟨".notes.md", PathKind.file⟩

/-- Claim C1 (code bug evaluation): the code, run on a regular file whose
name begins with a dot and which the Markdown heuristic accepts, keeps the
entry.  This contradicts both the claim and the function's own docstring
("the filtered set will include all filesystem entries that aren't
hidden…"): in the Python condition the hidden-name test guards only the
directory branch. -/
theorem c1_hidden_file_kept :
    filter_paths (fun _ => true) [hiddenMdFile] = [hiddenMdFile] := by
  rfl

/-- Claim C2: an entry of the input collection is kept whenever it is a
non-hidden directory or a Markdown-accepted regular file; every non-hidden
directory is kept regardless of name, and a non-hidden regular file is
kept iff the Markdown heuristic accepts it. -/
theorem c2_inclusion_rule (md : FSPath → Bool) (paths : List FSPath)
    (p : FSPath) (hp : p ∈ paths) :
    ((p.kind = PathKind.directory ∧ p.hidden = false) ∨
        (p.kind = PathKind.file ∧ md p = true) →
      p ∈ filter_paths md paths) ∧
    (p.kind = PathKind.directory → p.hidden = false →
      p ∈ filter_paths md paths) ∧
    (p.kind = PathKind.file → p.hidden = false →
      (p ∈ filter_paths md paths ↔ md p = true)) := by
  refine ⟨?_, ?_, ?_⟩
  · rintro (⟨hk, hn⟩ | ⟨hk, hm⟩)
    · simp [filter_paths, List.mem_filter, hp, FSPath.is_dir, FSPath.is_file,
        hk, hn]
    · simp [filter_paths, List.mem_filter, hp, FSPath.is_dir, FSPath.is_file,
        hk, hm]
  · intro hk hn
    simp [filter_paths, List.mem_filter, hp, FSPath.is_dir, FSPath.is_file,
      hk, hn]
  · intro hk hn
    simp [filter_paths, List.mem_filter, hp, FSPath.is_dir, FSPath.is_file,
      hk, hn]

/-- Witness for `c2_inclusion_rule` at a concrete non-hidden Markdown file
inside a two-entry collection. -/
theorem c2_inclusion_rule_witness :
    let p : FSPath := ⟨"notes.md", PathKind.file⟩
    let paths : List FSPath := [⟨".git", PathKind.directory⟩, p]
    ((p.kind = PathKind.directory ∧ p.hidden = false) ∨
        (p.kind = PathKind.file ∧ (fun _ => true) p = true) →
      p ∈ filter_paths (fun _ => true) paths) ∧
    (p.kind = PathKind.directory → p.hidden = false →
      p ∈ filter_paths (fun _ => true) paths) ∧
    (p.kind = PathKind.file → p.hidden = false →
      (p ∈ filter_paths (fun _ => true) paths ↔ (fun _ => true) p = true)) :=
  c2_inclusion_rule (fun _ => true) _ _ (by decide)

/-- Claim C6: there is an input — a dot-named regular file accepted by the
Markdown heuristic — that the filter keeps, because the hidden-name test
guards only the directory branch of the condition. -/
theorem c6_hidden_markdown_file_included :
    hiddenMdFile ∈ filter_paths (fun _ => true) [hiddenMdFile] := by
  decide

/-- Claim C7: the Markdown heuristic is never evaluated on a directory
entry, and a dot-named directory is never kept, whatever the heuristic
would answer. -/
theorem c7_directories_never_markdown_checked (md : FSPath → Bool)
    (paths : List FSPath) :
    (∀ p ∈ markdown_check_calls paths, p.kind ≠ PathKind.directory) ∧
    (∀ p ∈ paths, p.kind = PathKind.directory → p.hidden = true →
      p ∉ filter_paths md paths) := by
  constructor
  · intro p hp
    have hchk : markdown_checked p = true := (List.mem_filter.mp hp).2
    have hfile : p.is_file = true := by
      simpa [markdown_checked] using (Bool.and_elim_right hchk)
    intro hdir
    simp [FSPath.is_file, hdir] at hfile
  · intro p _ hdir hhid hmem
    have hcond := (List.mem_filter.mp hmem).2
    simp [FSPath.is_dir, FSPath.is_file, hdir, hhid] at hcond

/-- Witness for `c7_directories_never_markdown_checked` on a concrete
collection containing a hidden directory. -/
theorem c7_directories_never_markdown_checked_witness :
    let paths : List FSPath :=
      [⟨".git", PathKind.directory⟩, ⟨"docs", PathKind.directory⟩,
        ⟨"notes.md", PathKind.file⟩]
    (⟨".git", PathKind.directory⟩ : FSPath).kind ≠ PathKind.directory ∨
    ((⟨".git", PathKind.directory⟩ : FSPath) ∉
      filter_paths (fun _ => true) paths) := by
  refine Or.inr ?_
  exact (c7_directories_never_markdown_checked (fun _ => true) _).2
    ⟨".git", PathKind.directory⟩ (by decide) (by decide) (by decide)

/-- Claim C8: the filter's output is a subsequence of its input — it
contains only entries drawn from the input, in their original relative
order. -/
theorem c8_output_sublist_of_input (md : FSPath → Bool)
    (paths : List FSPath) :
    (filter_paths md paths).Sublist paths :=
  List.filter_sublist paths

/-- The location carried by a `LocalFiles.Goto` message: the constructor
signature `location: Path | URL` admits either a local filesystem path or
a URL. -/
inductive GotoLocation where
  | fsPath : String → GotoLocation
  | url : String → GotoLocation
deriving DecidableEq, Repr

/-- `LocalFiles.Goto`: a message that requests the viewer goes to a given
location. -/
structure Goto where
  location : GotoLocation
deriving DecidableEq, Repr

/-- `DirectoryTree.FileSelected`: the event the hosted tree delivers when
a file is selected; `path` is the selected file's full path. -/
structure FileSelected where
  path : String
deriving DecidableEq, Repr

/-- What one run of an event handler did: whether it called
`event.stop()`, and the messages it posted, in order. -/
structure HandlerResult where
  event_stopped : Bool
  posted : List Goto
deriving DecidableEq, Repr

/-- `LocalFiles.on_directory_tree_file_selected`: stops the event and
posts a single `Goto` carrying `Path(event.path)`. -/
def on_directory_tree_file_selected (event : FileSelected) : HandlerResult :=
  ⟨true, [⟨GotoLocation.fsPath event.path⟩]⟩

/-- Claim C3: for every file-selection event, the handler marks the event
as handled and posts exactly one `Goto` message whose location is the
selected file's path; in particular selecting `notes.md` under `/docs`
yields exactly one request for `/docs/notes.md`. -/
theorem c3_selection_posts_one_goto (event : FileSelected) :
    (on_directory_tree_file_selected event).event_stopped = true ∧
    (on_directory_tree_file_selected event).posted =
      [⟨GotoLocation.fsPath event.path⟩] ∧
    (on_directory_tree_file_selected event).posted.length = 1 := by
  exact ⟨rfl, rfl, rfl⟩

/-- Claim C10: every message the selection handler posts carries a local
filesystem path as its location, never a URL. -/
theorem c10_goto_is_always_path (event : FileSelected) (g : Goto)
    (hg : g ∈ (on_directory_tree_file_selected event).posted) :
    (∃ p, g.location = GotoLocation.fsPath p) ∧
    ∀ u, g.location ≠ GotoLocation.url u := by
  have hgl : g = ⟨GotoLocation.fsPath event.path⟩ := by
    simpa [on_directory_tree_file_selected] using hg
  subst hgl
  exact ⟨⟨event.path, rfl⟩, fun u h => by cases h⟩

/-- Witness for `c10_goto_is_always_path` at a concrete selection event. -/
theorem c10_goto_is_always_path_witness :
    (∃ p, (Goto.mk (GotoLocation.fsPath "/docs/notes.md")).location =
      GotoLocation.fsPath p) ∧
    ∀ u, (Goto.mk (GotoLocation.fsPath "/docs/notes.md")).location ≠
      GotoLocation.url u :=
  c10_goto_is_always_path ⟨"/docs/notes.md"⟩
    ⟨GotoLocation.fsPath "/docs/notes.md"⟩ (by decide)

/-- A mounted `FilteredDirectoryTree` widget instance: its root path and
an identity distinguishing distinct widget instances (a fresh instance is
never the same widget as a removed one). -/
structure TreeWidget where
  root : String
  id : Nat
deriving DecidableEq, Repr

/-- The `LocalFiles` pane's widget-hierarchy state: the list of mounted
`FilteredDirectoryTree` children, plus a counter from which fresh widget
identities are drawn. -/
structure PaneState where
  mounted : List TreeWidget
  next_id : Nat
deriving DecidableEq, Repr

/-- Well-formedness of a pane state: every mounted widget's identity was
drawn from below the freshness counter. -/
def PaneState.wf (s : PaneState) : Bool :=
  s.mounted.all fun t => t.id < s.next_id

/-- `getenv("HOME") or "."`: `getenv` yields `none` when `HOME` is unset,
and Python's `or` falls through on the empty (falsy) string. -/
def default_root (home : Option String) : String :=
  match home with
  | none => "."
  | some h => if h.isEmpty then "." else h

/-- `LocalFiles.compose`: the pane mounts a single
`FilteredDirectoryTree(getenv("HOME") or ".")`. -/
def compose (home : Option String) : PaneState :=
  ⟨[⟨default_root home, 0⟩], 1⟩

/-- `query_one` over the mounted children: yields the tree when exactly
one is mounted, and `none` when zero or several are (the toolkit raises
`NoMatches` / `TooManyMatches` there). -/
def query_single : List TreeWidget → Option TreeWidget
  | [t] => some t
  | _ => none

/-- `LocalFiles.chdir`: `query_one(FilteredDirectoryTree)` finds the
single mounted tree, `remove` unmounts it, and a freshly constructed tree
rooted at the given path is mounted. -/
def chdir (s : PaneState) (path : String) : Option PaneState :=
  (query_single s.mounted).map fun _ =>
    ⟨[⟨path, s.next_id⟩], s.next_id + 1⟩

/-- `LocalFiles.set_focus_within`: `query_one(DirectoryTree).focus()`
focuses the single mounted tree. -/
def set_focus_within (s : PaneState) : Option TreeWidget :=
  query_single s.mounted

/-- A successful `query_single` pins down the whole child list: exactly
one tree is mounted and it is the returned one. -/
theorem query_single_eq (l : List TreeWidget) (t : TreeWidget)
    (h : query_single l = some t) : l = [t] := by
  match l with
  | [] => simp [query_single] at h
  | [u] =>
    simp only [query_single, Option.some.injEq] at h
    rw [h]
  | u :: v :: rest => simp [query_single] at h

/-- Claim C4: when `chdir` succeeds, afterwards exactly one tree is
mounted, it is rooted at the given path, and no tree that was mounted
before is still mounted (the old instance was removed and the new one is
fresh). -/
theorem c4_chdir_replaces_tree (s : PaneState) (path : String)
    (s' : PaneState) (hwf : s.wf = true) (h : chdir s path = some s') :
    s'.mounted.length = 1 ∧
    (∀ t ∈ s'.mounted, t.root = path) ∧
    (∀ told ∈ s.mounted, told ∉ s'.mounted) := by
  rcases hq : query_single s.mounted with _ | u
  · simp only [chdir, hq, Option.map_none'] at h
    cases h
  · simp only [chdir, hq, Option.map_some', Option.some.injEq] at h
    subst h
    refine ⟨rfl, by simp, ?_⟩
    intro told htold
    have hlt : told.id < s.next_id := by
      have hall := List.all_eq_true.mp hwf told htold
      exact of_decide_eq_true hall
    simp only [List.mem_singleton]
    intro heq
    rw [heq] at hlt
    exact Nat.lt_irrefl _ hlt

/-- Witness for `c4_chdir_replaces_tree`: re-rooting a pane holding one
tree at `/home` to `/docs`. -/
theorem c4_chdir_replaces_tree_witness :
    (⟨[⟨"/docs", 1⟩], 2⟩ : PaneState).mounted.length = 1 ∧
    (∀ t ∈ (⟨[⟨"/docs", 1⟩], 2⟩ : PaneState).mounted, t.root = "/docs") ∧
    (∀ told ∈ (⟨[⟨"/home", 0⟩], 1⟩ : PaneState).mounted,
      told ∉ (⟨[⟨"/docs", 1⟩], 2⟩ : PaneState).mounted) :=
  c4_chdir_replaces_tree ⟨[⟨"/home", 0⟩], 1⟩ "/docs" ⟨[⟨"/docs", 1⟩], 2⟩
    (by decide) (by decide)

/-- Claim C5 counterexample: with `HOME` set to the empty string (a set
variable), the mounted tree's root is `"."`, not the variable's value:
Python's `or` falls through on the falsy empty string. -/
theorem c5_home_set_empty_counterexample :
    (compose (some "")).mounted = [⟨".", 0⟩] ∧
    (compose (some "")).mounted ≠ [⟨"", 0⟩] := by
  refine ⟨rfl, ?_⟩
  decide

/-- Claim C5 (amended): on creation exactly one tree is mounted; its root
is the value of `HOME` when that variable is set and non-empty, and `"."`
when `HOME` is unset or set to the empty string. -/
theorem c5_initial_tree (home : Option String) :
    (compose home).mounted.length = 1 ∧
    (home = none → (compose home).mounted = [⟨".", 0⟩]) ∧
    (home = some "" → (compose home).mounted = [⟨".", 0⟩]) ∧
    (∀ h, home = some h → h.isEmpty = false →
      (compose home).mounted = [⟨h, 0⟩]) := by
  refine ⟨rfl, ?_, ?_, ?_⟩
  · rintro rfl; rfl
  · rintro rfl; rfl
  · rintro h rfl hne
    simp [compose, default_root, hne]

/-- Witness for `c5_initial_tree` with `HOME=/home/user`. -/
theorem c5_initial_tree_witness :
    (compose (some "/home/user")).mounted = [⟨"/home/user", 0⟩] :=
  (c5_initial_tree (some "/home/user")).2.2.2 "/home/user" rfl (by decide)

/-- Claim C9: after a re-root, focus delegation targets a tree that is
currently mounted, and never any tree instance that was mounted before
the re-root (the stale, removed instance). -/
theorem c9_focus_targets_mounted_tree (s : PaneState) (path : String)
    (s' : PaneState) (t : TreeWidget) (hwf : s.wf = true)
    (hch : chdir s path = some s') (hf : set_focus_within s' = some t) :
    t ∈ s'.mounted ∧ ∀ told ∈ s.mounted, t ≠ told := by
  have hm : s'.mounted = [t] := query_single_eq _ _ hf
  refine ⟨by rw [hm]; exact List.mem_singleton_self t, ?_⟩
  rcases hq : query_single s.mounted with _ | u
  · simp only [chdir, hq, Option.map_none'] at hch
    cases hch
  · simp only [chdir, hq, Option.map_some', Option.some.injEq] at hch
    subst hch
    intro told htold heq
    have hlt : told.id < s.next_id := by
      have hall := List.all_eq_true.mp hwf told htold
      exact of_decide_eq_true hall
    have hm' : [(⟨path, s.next_id⟩ : TreeWidget)] = [t] := hm
    injection hm' with h1 _
    rw [← heq, ← h1] at hlt
    exact Nat.lt_irrefl _ hlt

/-- Witness for `c9_focus_targets_mounted_tree`: after re-rooting from
`/home` to `/docs`, focus goes to the fresh `/docs` tree. -/
theorem c9_focus_targets_mounted_tree_witness :
    (⟨"/docs", 1⟩ : TreeWidget) ∈ (⟨[⟨"/docs", 1⟩], 2⟩ : PaneState).mounted ∧
    ∀ told ∈ (⟨[⟨"/home", 0⟩], 1⟩ : PaneState).mounted,
      (⟨"/docs", 1⟩ : TreeWidget) ≠ told :=
  c9_focus_targets_mounted_tree ⟨[⟨"/home", 0⟩], 1⟩ "/docs"
    ⟨[⟨"/docs", 1⟩], 2⟩ ⟨"/docs", 1⟩ (by decide) (by decide) (by decide)
